import Mathlib

/-!
Shallow embedding of `frontend/src/pages/RetailerbuyingPage.js`.

The page is a single React component.  We model its component state
(`whProducts`, `loading`, `selected`, `qty`, `markup`) as a structure and
each event handler as a pure function from the state (plus the outcome of
any network call it awaits) to the successor state together with the list
of observable effects it performs (toasts, the POST request, the nested
re-load, navigation).  JavaScript numbers are modelled as rationals;
console logging is not observable to the user and is omitted from the
effect list.
-/

namespace RetailerBuying

/-- A catalog product as delivered by the backend (spec section 3). -/
structure Product where
  id : Nat
  seller_id : Nat
  name : String
  description : String
  price : ℚ
  stock : ℚ
  image_url : Option String
deriving DecidableEq, Repr

/-- The session user from the authentication context. -/
structure User where
  id : Nat
  role : String
deriving DecidableEq, Repr

/-- The purchase payload built by `confirmPurchase` (source lines 39-45). -/
structure PurchaseRequest where
  wholesaler_id : Nat
  product_id : Nat
  retailer_id : Nat
  quantity : ℚ
  markup_percent : ℚ
deriving DecidableEq, Repr

/-- The component state: `useState` hooks of the page (source lines 12-16). -/
structure PageState where
  whProducts : List Product
  loading : Bool
  selected : Option Product
  qty : ℚ
  markup : ℚ
deriving DecidableEq, Repr

/-- Initial values of the `useState` hooks. -/
def initState : PageState :=
  { whProducts := [], loading := true, selected := none, qty := 1, markup := 20 }

/-- Observable effects of the handlers: toasts, the POST of the purchase
payload, the nested call to `load()`, and delayed navigation. -/
inductive Effect where
  | toastError (msg : String)
  | toastSuccess (msg : String)
  | post (req : PurchaseRequest)
  | callLoad
  | navigate (url : String) (delayMs : Nat)
deriving DecidableEq, Repr

/-- A JavaScript object produced by a successful `JSON.parse`, recording the
`detail` and `message` string properties when present. -/
structure JsonObj where
  detail : Option String
  message : Option String
deriving DecidableEq, Repr

/-- An HTTP response as seen through `fetch`: the status, the body text, and
the result of `JSON.parse` applied to that text (`none` when the body is not
valid JSON, e.g. plain text). -/
structure HttpResponse where
  status : Nat
  text : String
  parsed : Option JsonObj
deriving DecidableEq, Repr

/-- `resp.ok` of the fetch API: status in the range 200-299. -/
def respOk (r : HttpResponse) : Bool :=
  200 ≤ r.status && r.status < 300

/-- Outcome of the `fetch` in `confirmPurchase`: either the promise rejects
(network error) or a response arrives. -/
inductive FetchOutcome where
  | networkError (msg : String)
  | response (r : HttpResponse)
deriving DecidableEq, Repr

/-- JavaScript `a || b` on a possibly-absent string property: an absent or
empty string is falsy, so it falls through to the fallback. -/
def jsOrOpt (a : Option String) (b : String) : String :=
  match a with
  | some x => if x = "" then b else x
  | none => b

/-- JavaScript `a || b` on a string: the empty string is falsy. -/
def jsOrStr (a b : String) : String :=
  if a = "" then b else a

/-- Whether the character list `l` begins with the character list `sub`. -/
def leadsWith : List Char → List Char → Bool
  | [], _ => true
  | _ :: _, [] => false
  | a :: as, b :: bs => a == b && leadsWith as bs

/-- Whether the character list `sub` occurs contiguously inside `l`. -/
def occursIn : List Char → List Char → Bool
  | sub, [] => leadsWith sub []
  | sub, b :: bs => leadsWith sub (b :: bs) || occursIn sub bs

/-- JavaScript `s.includes(sub)`: substring test. -/
def jsIncludes (s sub : String) : Bool :=
  occursIn sub.data s.data

/-- The `errorMessage` built for a non-ok response (source lines 81-90):
`HTTP {status}: ` followed by the parsed `detail` field when the body parses
as JSON and `detail` is truthy, otherwise the raw body text. -/
def errorMessageOf (r : HttpResponse) : String :=
  "HTTP " ++ toString r.status ++ ": " ++
    (match r.parsed with
     | some obj => jsOrOpt obj.detail r.text
     | none => r.text)

/-- Message shown for a 405-bearing error (source line 116). -/
def msg405 : String := "Server rejected POST method - check CORS configuration"

/-- Message shown for a CORS-bearing error (source line 118). -/
def msgCors : String := "CORS blocked the request - check server CORS settings"

/-- Message shown for a network error (source line 120). -/
def msgNetwork : String := "Network error - check if server is running"

/-- The `catch` block of `confirmPurchase` (source lines 114-123): category
of the toast shown for an error message. -/
def categorizeError (m : String) : String :=
  if jsIncludes m "405" then msg405
  else if jsIncludes m "CORS" then msgCors
  else if jsIncludes m "Network Error" then msgNetwork
  else jsOrStr m "Purchase failed ⚠"

/-- The message of the exception thrown by `JSON.parse` on an invalid body.
The exact wording is engine dependent; no engine includes the substrings
`405`, `CORS` or `Network Error` in it. -/
def jsonParseErrorMessage : String := "Unexpected token in JSON"

/-- The payload object built by `confirmPurchase` (source lines 39-45). -/
def mkPayload (u : User) (sel : Product) (qty markup : ℚ) : PurchaseRequest :=
  { wholesaler_id := sel.seller_id
    product_id := sel.id
    retailer_id := u.id
    quantity := qty
    markup_percent := markup }

/-- The `disabled` prop of the Confirm Purchase button (source line 304):
`qty > selected.stock`. -/
def confirmDisabled (sel : Product) (qty : ℚ) : Bool :=
  decide (sel.stock < qty)

/-- Entry into `load()` (source line 23): `setLoading(true)`. -/
def loadStart (s : PageState) : PageState :=
  { s with loading := true }

/-- Settling of the fetch inside `load()` (source lines 24-33).  On success
(`some all`) the filtered list is stored; on failure (`none`) an error toast
is shown and the list is not touched; `loading` is cleared in both cases by
the `finally` block. -/
def loadSettle (u : User) (s : PageState) (outcome : Option (List Product)) :
    PageState × List Effect :=
  match outcome with
  | some all =>
      ({ s with whProducts := all.filter (fun p => p.seller_id != u.id)
                loading := false }, [])
  | none =>
      ({ s with loading := false },
       [Effect.toastError "Failed to load wholesaler products"])

/-- The `confirmPurchase` handler (source lines 36-125), as a function of the
state and of the outcome of the awaited fetch.  With no selection it returns
immediately with a validation toast and no network call.  Otherwise the
payload is posted; on an ok response with a JSON body the transient state is
reset, a success toast is shown, `load()` is re-run and navigation to the
dashboard is scheduled after 1000 ms; on an ok response whose body fails
`JSON.parse`, and on every non-ok or rejected fetch, the error is categorized
and toasted with the state left unchanged. -/
def confirmPurchase (u : User) (s : PageState) (outcome : FetchOutcome) :
    PageState × List Effect :=
  match s.selected with
  | none => (s, [Effect.toastError "Select a product"])
  | some sel =>
      let payload := mkPayload u sel s.qty s.markup
      match outcome with
      | FetchOutcome.networkError msg =>
          (s, [Effect.post payload, Effect.toastError (categorizeError msg)])
      | FetchOutcome.response r =>
          if respOk r then
            match r.parsed with
            | some obj =>
                ({ s with selected := none, qty := 1, markup := 20 },
                 [Effect.post payload,
                  Effect.toastSuccess (jsOrOpt obj.message "Purchase successful!"),
                  Effect.callLoad,
                  Effect.navigate "/retailer/dashboard" 1000])
            | none =>
                (s, [Effect.post payload,
                     Effect.toastError (categorizeError jsonParseErrorMessage)])
          else
            (s, [Effect.post payload,
                 Effect.toastError (categorizeError (errorMessageOf r))])

/-- The Select button of a product card (source line 192): `setSelected(p)`. -/
def selectProduct (s : PageState) (p : Product) : PageState :=
  { s with selected := some p }

/-- JavaScript `x.toFixed(2)` read back as a number: rounding to two decimal
places, ties upward (the larger candidate is chosen). -/
def toFixed2 (x : ℚ) : ℚ :=
  (((x * 100 + 1/2 : ℚ).floor : ℤ) : ℚ) / 100

/-- The retail price preview rendered in the modal (source line 284):
`(selected.price * (1 + markup / 100)).toFixed(2)`. -/
def retailPreview (price markup : ℚ) : ℚ :=
  toFixed2 (price * (1 + markup / 100))

/-- Modelled from the spec (section 4.3): `retail_price = wholesale_price ×
(1 + markup_percent / 100)`, rounded to 2 decimal places for display. -/
def retailPriceSpec (wholesale markupPercent : ℚ) : ℚ :=
  ((round (wholesale * (1 + markupPercent / 100) * 100) : ℤ) : ℚ) / 100

/-! Concrete fixtures used by witnesses and counterexamples. -/

/-- A sample session user. -/
def uEx : User := ⟨7, "retailer"⟩

/-- A sample wholesaler product, not owned by `uEx`. -/
def pEx : Product := ⟨1, 2, "Rice", "Basmati rice, 25 kg", 100, 5, none⟩

/-- A sample product listed by `uEx` itself. -/
def pOwn : Product := ⟨3, 7, "Wheat", "Own listing", 50, 10, none⟩

/-- A state with `pEx` selected and defaults qty 2, markup 20. -/
def sEx : PageState := ⟨[pEx], false, some pEx, 2, 20⟩

/-- A state with quantity 0 and markup 150 entered: the number inputs carry
min and max attributes but typed values are not clamped. -/
def s4 : PageState := ⟨[pEx], false, some pEx, 0, 150⟩

/-- A state mid-load with a previously loaded non-empty product list. -/
def s7 : PageState := ⟨[pEx], true, none, 1, 20⟩

/-- An HTTP 200 response whose body is plain text, not valid JSON. -/
def r200bad : HttpResponse := ⟨200, "OK", none⟩

/-- An HTTP 200 response with a JSON object body carrying a message. -/
def r200ok : HttpResponse := ⟨200, "\x7b\x7d", some ⟨none, some "ok"⟩⟩

/-- An HTTP 405 response with a plain-text body. -/
def r405 : HttpResponse := ⟨405, "Method Not Allowed", none⟩

/-! Helper lemmas shared by several claim theorems. -/

/-- The Batteries floor on `ℚ` agrees with the Mathlib floor. -/
theorem ratFloor_eq_intFloor (a : ℚ) : a.floor = ⌊a⌋ := by
  rw [Rat.floor_def', Rat.floor_def]

/-- A character list beginning with `sub` still begins with `sub` after an
append on the right. -/
theorem leadsWith_append (sub l t : List Char) (h : leadsWith sub l = true) :
    leadsWith sub (l ++ t) = true := by
  induction sub generalizing l with
  | nil => rfl
  | cons a as ih =>
      cases l with
      | nil => simp [leadsWith] at h
      | cons b bs =>
          simp only [leadsWith, Bool.and_eq_true] at h ⊢
          exact ⟨h.1, ih bs h.2⟩

/-- A substring occurrence survives an append on the right. -/
theorem occursIn_append_left (sub l t : List Char) (h : occursIn sub l = true) :
    occursIn sub (l ++ t) = true := by
  induction l with
  | nil =>
      cases sub with
      | nil =>
          cases t with
          | nil => rfl
          | cons c cs => simp [occursIn, leadsWith]
      | cons a as => simp [occursIn, leadsWith] at h
  | cons b bs ih =>
      simp only [occursIn, Bool.or_eq_true, List.cons_append] at h ⊢
      rcases h with h | h
      · exact Or.inl (leadsWith_append sub (b :: bs) t h)
      · exact Or.inr (ih h)

/-- Any error message of the shape `HTTP 405: ...` is categorized to the
method-not-allowed toast, whatever the tail says. -/
theorem categorize_http405 (rest : String) :
    categorizeError ("HTTP " ++ toString (405 : Nat) ++ ": " ++ rest) = msg405 := by
  have hinc : jsIncludes ("HTTP " ++ toString (405 : Nat) ++ ": " ++ rest) "405" = true := by
    unfold jsIncludes
    have hd : ("HTTP " ++ toString (405 : Nat) ++ ": " ++ rest).data
        = ("HTTP " ++ toString (405 : Nat) ++ ": ").data ++ rest.data := rfl
    rw [hd]
    exact occursIn_append_left _ _ _ (by decide)
  unfold categorizeError
  rw [hinc]
  rfl

/-- When a product is selected, the only payload ever posted by
`confirmPurchase` is the one built from the selection, the entered quantity
and the entered markup. -/
theorem post_eq_payload (u : User) (s : PageState) (sel : Product)
    (out : FetchOutcome) (hsel : s.selected = some sel) :
    ∀ req, Effect.post req ∈ (confirmPurchase u s out).2 →
      req = mkPayload u sel s.qty s.markup := by
  intro req hreq
  cases out with
  | networkError m =>
      simp [confirmPurchase, hsel] at hreq
      exact hreq
  | response r =>
      by_cases hok : respOk r
      · rcases hp : r.parsed with _ | obj
        · simp [confirmPurchase, hsel, hok, hp] at hreq
          exact hreq
        · simp [confirmPurchase, hsel, hok, hp] at hreq
          exact hreq
      · simp [confirmPurchase, hsel, hok] at hreq
        exact hreq

/-! Claim theorems. -/

/-- C1: the Confirm Purchase button is enabled exactly when the entered
quantity does not exceed the stock of the selected product, so submission is
blocked whenever the quantity exceeds the stock and an enabled submit always
has quantity at most the stock. -/
theorem confirm_blocked_iff_qty_exceeds_stock (sel : Product) (qty : ℚ) :
    confirmDisabled sel qty = false ↔ qty ≤ sel.stock := by
  unfold confirmDisabled
  simp [not_lt]

/-- C2: after a successful catalog fetch the stored list is exactly the
fetched list filtered by seller distinct from the session user, and hence no
product listed by the session user is ever in the rendered list. -/
theorem load_excludes_own_products (u : User) (s : PageState) (all : List Product) :
    (loadSettle u s (some all)).1.whProducts
      = all.filter (fun p => p.seller_id != u.id) ∧
    ∀ p, p ∈ (loadSettle u s (some all)).1.whProducts → p.seller_id ≠ u.id := by
  refine ⟨rfl, ?_⟩
  intro p hp
  simp only [loadSettle, List.mem_filter, bne_iff_ne, ne_eq] at hp
  exact hp.2

/-- C2 witness: a concrete product kept by the filter indeed has a seller
distinct from the session user. -/
theorem load_excludes_own_products_witness : pEx.seller_id ≠ uEx.id :=
  (load_excludes_own_products uEx initState [pEx, pOwn]).2 pEx (by decide)

/-- C3: the rendered retail price preview is the pure function
`price * (1 + markup / 100)` rounded to two decimal places, matching the
specification formula, and at price 100 with markup 20 it shows 120.00. -/
theorem retail_preview_matches_spec :
    (∀ price markup : ℚ, retailPreview price markup = retailPriceSpec price markup) ∧
    retailPreview 100 20 = 120 := by
  have key : ∀ price markup : ℚ, retailPreview price markup = retailPriceSpec price markup := by
    intro price markup
    unfold retailPreview retailPriceSpec toFixed2
    rw [round_eq, ratFloor_eq_intFloor]
  refine ⟨key, ?_⟩
  rw [key]
  unfold retailPriceSpec
  norm_num [round_eq]

/-- C7 amended: entering `load` raises the loading flag; when the fetch
fails the product list is left unchanged (hence still empty on the mount-time
load from the initial state), an error toast is the only effect, and the
loading flag is cleared; when the fetch succeeds the loading flag is cleared
with no toast. -/
theorem load_failure_keeps_list (u : User) (s : PageState) :
    (loadStart s).loading = true ∧
    (loadSettle u s none).1.whProducts = s.whProducts ∧
    (loadSettle u s none).1.loading = false ∧
    (loadSettle u s none).2 = [Effect.toastError "Failed to load wholesaler products"] ∧
    (∀ all, (loadSettle u s (some all)).1.loading = false ∧
      (loadSettle u s (some all)).2 = []) ∧
    (loadSettle u (loadStart initState) none).1.whProducts = [] :=
  ⟨rfl, rfl, rfl, rfl, fun _ => ⟨rfl, rfl⟩, rfl⟩

/-- C7 counterexample: a failing re-load from a state whose list is already
populated leaves the old non-empty list in place, so the claim that every
failing load leaves the product list empty is false. -/
theorem load_failure_empty_counterexample :
    (loadSettle uEx s7 none).1.whProducts = [pEx] ∧
    ([pEx] : List Product) ≠ [] ∧
    Effect.toastError "Failed to load wholesaler products" ∈ (loadSettle uEx s7 none).2 := by
  decide

/-- C8: with no product selected, `confirmPurchase` returns at once with a
validation toast: the state is unchanged and no POST effect is emitted. -/
theorem no_selection_guard (u : User) (s : PageState) (out : FetchOutcome)
    (hsel : s.selected = none) :
    confirmPurchase u s out = (s, [Effect.toastError "Select a product"]) ∧
    ∀ req, Effect.post req ∉ (confirmPurchase u s out).2 := by
  have h : confirmPurchase u s out = (s, [Effect.toastError "Select a product"]) := by
    unfold confirmPurchase
    rw [hsel]
  refine ⟨h, ?_⟩
  intro req hmem
  rw [h] at hmem
  simp at hmem

/-- C8 witness: from the initial state, where nothing is selected, the guard
fires on a concrete invocation. -/
theorem no_selection_guard_witness :
    confirmPurchase uEx initState (FetchOutcome.networkError "Failed to fetch")
      = (initState, [Effect.toastError "Select a product"]) :=
  (no_selection_guard uEx initState (FetchOutcome.networkError "Failed to fetch") rfl).1

/-- C10: the Select button only records the chosen product; quantity, markup,
the product list and the loading flag all carry over unchanged. -/
theorem select_changes_only_selection (s : PageState) (p : Product) :
    (selectProduct s p).selected = some p ∧
    (selectProduct s p).qty = s.qty ∧
    (selectProduct s p).markup = s.markup ∧
    (selectProduct s p).whProducts = s.whProducts ∧
    (selectProduct s p).loading = s.loading :=
  ⟨rfl, rfl, rfl, rfl, rfl⟩

/-- C4 counterexample: with quantity 0 and markup 150 entered, the button is
still enabled and `confirmPurchase` posts a payload whose quantity is below 1
and whose markup is above 100, so the claimed payload bounds are false. -/
theorem payload_bounds_counterexample :
    confirmDisabled pEx s4.qty = false ∧
    Effect.post (mkPayload uEx pEx 0 150)
      ∈ (confirmPurchase uEx s4 (FetchOutcome.networkError "Failed to fetch")).2 ∧
    ¬((1 : ℚ) ≤ (mkPayload uEx pEx 0 150).quantity) ∧
    ¬((mkPayload uEx pEx 0 150).markup_percent ≤ 100) := by
  decide

/-- C4 amended: every payload posted by `confirmPurchase` while the button is
enabled carries exactly the entered quantity and markup, and its quantity
does not exceed the stock of the selected product; no lower bound on the
quantity, no integrality, and no range for the markup are enforced. -/
theorem enabled_payload_qty_le_stock (u : User) (s : PageState) (sel : Product)
    (out : FetchOutcome) (hsel : s.selected = some sel)
    (henabled : confirmDisabled sel s.qty = false) :
    ∀ req, Effect.post req ∈ (confirmPurchase u s out).2 →
      req.quantity = s.qty ∧ req.markup_percent = s.markup ∧
      req.quantity ≤ sel.stock := by
  intro req hreq
  have h := post_eq_payload u s sel out hsel req hreq
  subst h
  refine ⟨rfl, rfl, ?_⟩
  have hle : ¬ sel.stock < s.qty := by
    simpa [confirmDisabled] using henabled
  exact le_of_not_lt hle

/-- C4 amended witness: evaluated on a concrete enabled state. -/
theorem enabled_payload_qty_le_stock_witness :
    (mkPayload uEx pEx 2 20).quantity ≤ pEx.stock :=
  ((enabled_payload_qty_le_stock uEx sEx pEx (FetchOutcome.networkError "x")
      rfl (by decide)) (mkPayload uEx pEx 2 20) (by decide)).2.2

/-- C5 counterexample: an HTTP 200 response whose body is not valid JSON
leaves the selection, quantity and markup untouched, triggers no re-load and
no navigation, so the claim over every 2xx submission is false. -/
theorem success_reset_counterexample :
    respOk r200bad = true ∧
    (confirmPurchase uEx sEx (FetchOutcome.response r200bad)).1 = sEx ∧
    (confirmPurchase uEx sEx (FetchOutcome.response r200bad)).1.selected = some pEx ∧
    Effect.callLoad ∉ (confirmPurchase uEx sEx (FetchOutcome.response r200bad)).2 ∧
    Effect.navigate "/retailer/dashboard" 1000
      ∉ (confirmPurchase uEx sEx (FetchOutcome.response r200bad)).2 := by
  decide

/-- C5 amended: on an HTTP 2xx response whose body parses as JSON, the
transient state is reset to selection none, quantity 1 and markup 20, and the
effects are exactly the POST, a success toast, the list re-load, and
navigation to the dashboard after a 1000 ms delay. -/
theorem success_resets_state (u : User) (s : PageState) (sel : Product)
    (r : HttpResponse) (obj : JsonObj) (hsel : s.selected = some sel)
    (hok : respOk r = true) (hp : r.parsed = some obj) :
    (confirmPurchase u s (FetchOutcome.response r)).1
      = { s with selected := none, qty := 1, markup := 20 } ∧
    (confirmPurchase u s (FetchOutcome.response r)).2
      = [Effect.post (mkPayload u sel s.qty s.markup),
         Effect.toastSuccess (jsOrOpt obj.message "Purchase successful!"),
         Effect.callLoad,
         Effect.navigate "/retailer/dashboard" 1000] := by
  unfold confirmPurchase
  rw [hsel]
  simp [hok, hp]

/-- C5 amended witness: a concrete 200 response with a JSON body resets the
selection. -/
theorem success_resets_state_witness :
    (confirmPurchase uEx sEx (FetchOutcome.response r200ok)).1.selected = none := by
  have h := success_resets_state uEx sEx pEx r200ok ⟨none, some "ok"⟩ rfl (by decide) rfl
  rw [h.1]

/-- C6: a 405 response makes `confirmPurchase` toast the method-not-allowed
guidance, which differs from the generic network-error message; and in
general the error message for a non-ok response carries the parsed JSON
`detail` field when the body parses and `detail` is truthy, falling back to
the raw body text. -/
theorem http405_specific_message (u : User) (s : PageState) (sel : Product)
    (r : HttpResponse) (hsel : s.selected = some sel) (h405 : r.status = 405) :
    (confirmPurchase u s (FetchOutcome.response r)).2
      = [Effect.post (mkPayload u sel s.qty s.markup), Effect.toastError msg405] ∧
    msg405 ≠ msgNetwork ∧
    (∀ r2 : HttpResponse, ∀ obj : JsonObj, ∀ d : String,
      r2.parsed = some obj → obj.detail = some d → d ≠ "" →
        errorMessageOf r2 = "HTTP " ++ toString r2.status ++ ": " ++ d) ∧
    (∀ r2 : HttpResponse, r2.parsed = none →
        errorMessageOf r2 = "HTTP " ++ toString r2.status ++ ": " ++ r2.text) := by
  obtain ⟨st, tx, pr⟩ := r
  simp only at h405
  subst h405
  have hok : respOk ⟨405, tx, pr⟩ = false := rfl
  refine ⟨?_, by decide, ?_, ?_⟩
  · unfold confirmPurchase
    rw [hsel]
    simp only [hok, Bool.false_eq_true, if_false]
    unfold errorMessageOf
    rw [categorize_http405]
  · intro r2 obj d hparsed hdetail hne
    unfold errorMessageOf jsOrOpt
    rw [hparsed]
    simp [hdetail, hne]
  · intro r2 hparsed
    unfold errorMessageOf
    rw [hparsed]

/-- C6 witness: a concrete 405 response produces the method-not-allowed
toast. -/
theorem http405_specific_message_witness :
    Effect.toastError msg405 ∈ (confirmPurchase uEx sEx (FetchOutcome.response r405)).2 := by
  have h := http405_specific_message uEx sEx pEx r405 rfl rfl
  rw [h.1]
  simp

/-- C9: every payload posted by `confirmPurchase` wires the wholesaler id
from the selected product seller, the product id from the selected product,
and the retailer id from the session user. -/
theorem payload_wires_identifiers (u : User) (s : PageState) (sel : Product)
    (out : FetchOutcome) (hsel : s.selected = some sel) :
    ∀ req, Effect.post req ∈ (confirmPurchase u s out).2 →
      req.wholesaler_id = sel.seller_id ∧ req.product_id = sel.id ∧
      req.retailer_id = u.id := by
  intro req hreq
  have h := post_eq_payload u s sel out hsel req hreq
  subst h
  exact ⟨rfl, rfl, rfl⟩

/-- C9 witness: evaluated on a concrete posted payload. -/
theorem payload_wires_identifiers_witness :
    (mkPayload uEx pEx 2 20).retailer_id = uEx.id :=
  ((payload_wires_identifiers uEx sEx pEx (FetchOutcome.networkError "x") rfl)
    (mkPayload uEx pEx 2 20) (by decide)).2.2

end RetailerBuying
